import Mathlib

/-
Shallow embedding of the E-Book Librarian firmware (src/main/main.c).
The embedding models the transfer engine (copy_file, transfer_file_handler,
transfer_progress_handler, transfer_cancel_handler), the provisioning logic
(load_wifi_credentials, init_wifi, wifi_event_handler), the captive portal
routing (start_captive_portal_server, http_404_error_handler,
save_credentials_post_handler) and the BLE provisioning write handler
(gatts_profile_event_handler, ESP_GATTS_WRITE_EVT branch).

External collaborators (the VFS, the NVS driver, the Wi-Fi radio, the HTTP
transport, the BLE stack) are modelled as environment parameters: the
filesystem outcome of each fopen/stat/fwrite, the NVS contents, the first
event delivered to the Wi-Fi event group, and the already-parsed request
payloads.  The volatile flag g_cancel_transfer is read once per loop
iteration in the C code; those reads are modelled by an oracle
cancelAt : Nat -> Bool giving the value observed before chunk i is written.
-/

namespace EbookLibrarian

/-- The led_state_t enumeration (g_led_state). -/
inductive LedState
  | initState
  | idle
  | connected
  | transfer
  | error
  | setup
  | eject
deriving DecidableEq

/-- transfer_progress_t: the single global transfer job record
(g_transfer_progress). -/
structure TransferProgress where
  filename : String
  bytes_transferred : Nat
  total_bytes : Nat
  active : Bool
  success : Bool
  error_msg : String
deriving DecidableEq

/-- The esp_err_t outcome of copy_file, collapsed to ok (ESP_OK) versus
fail (ESP_FAIL): the C function only ever returns these two values. -/
inductive CopyResult
  | ok
  | fail
deriving DecidableEq

/-- Whether the destination file exists after copy_file returns:
never created (fopen of source or destination failed), created and left in
place, or created and then deleted by remove(dest_path). -/
inductive DestStatus
  | untouched
  | present
  | removed
deriving DecidableEq

/-- Filesystem environment for one copy_file call: whether fopen of the
source succeeds, whether stat succeeds, the number of bytes fread can
deliver from the source, whether fopen of the destination succeeds, whether
malloc succeeds, and whether the i-th chunk fwrite writes all bytes. -/
structure CopyEnv where
  srcOpenOk : Bool
  statOk : Bool
  srcSize : Nat
  destOpenOk : Bool
  mallocOk : Bool
  writeOkAt : Nat → Bool

/-- The while loop of copy_file.  Each iteration freads
min 4096 remaining bytes (the loop exits when fread returns 0), then checks
g_cancel_transfer (oracle cancelAt i), then fwrites the chunk, then adds
bytes_read to bytes_transferred.  The cancel branch removes the destination
file; the write-failure branch leaves it in place.  After a normal exit
copy_file sets progress->success = true. -/
def copyLoop (cancelAt writeOkAt : Nat → Bool) (i remaining : Nat)
    (p : TransferProgress) : CopyResult × TransferProgress × DestStatus :=
  if _h : remaining = 0 then
    (.ok, { p with success := true }, .present)
  else
    let k := min 4096 remaining
    if cancelAt i then
      (.fail, { p with error_msg := "Transfer cancelled." }, .removed)
    else if writeOkAt i then
      copyLoop cancelAt writeOkAt (i + 1) (remaining - k)
        { p with bytes_transferred := p.bytes_transferred + k }
    else
      (.fail, { p with error_msg := "Write error on destination." }, .present)
termination_by remaining
decreasing_by
  omega

/-- copy_file: opens the source, stats it for total_bytes (0 when stat
fails), resets bytes_transferred, opens the destination, allocates the
4096-byte buffer, then runs the chunk loop. -/
def copy_file (env : CopyEnv) (cancelAt : Nat → Bool) (p : TransferProgress) :
    CopyResult × TransferProgress × DestStatus :=
  if env.srcOpenOk then
    let p1 := { p with
      total_bytes := if env.statOk then env.srcSize else 0,
      bytes_transferred := 0 }
    if env.destOpenOk then
      if env.mallocOk then
        copyLoop cancelAt env.writeOkAt 0 env.srcSize p1
      else
        (.fail, { p1 with error_msg := "Memory allocation failed." }, .present)
    else
      (.fail, { p1 with error_msg := "Failed to open destination file." }, .untouched)
  else
    (.fail, { p with error_msg := "Failed to open source file." }, .untouched)

/-- The successive values of g_transfer_progress.bytes_transferred that are
observable while the copy loop of copy_file runs, starting from the value b
it holds when the loop is entered: one snapshot before the loop and one
after each completed chunk, ending at the value the loop leaves behind
(loop exit, cancellation, or write failure). -/
def copyLoopSnapshots (cancelAt writeOkAt : Nat → Bool) (i remaining b : Nat) :
    List Nat :=
  if _h : remaining = 0 then
    [b]
  else
    let k := min 4096 remaining
    if cancelAt i then
      [b]
    else if writeOkAt i then
      b :: copyLoopSnapshots cancelAt writeOkAt (i + 1) (remaining - k) (b + k)
    else
      [b]
termination_by remaining
decreasing_by
  omega

/-- The globals read and written by the web handlers: g_transfer_progress,
g_cancel_transfer, g_led_state, ebook_reader_connected. -/
structure SysState where
  progress : TransferProgress
  cancelRequested : Bool
  led : LedState
  readerConnected : Bool
deriving DecidableEq

/-- The fields of g_transfer_progress as transfer_file_handler initializes
them (lines 545-551): strlcpy truncates the filename to 255 characters. -/
def initProgress (filename : String) : TransferProgress :=
  { filename := filename.take 255
    bytes_transferred := 0
    total_bytes := 0
    active := true
    success := false
    error_msg := "" }

/-- HTTP responses produced by the transfer-related handlers. -/
inductive Response
  | error429 (msg : String)
  | transferResult (success : Bool) (message : String)
  | progressSnapshot (filename : String) (bytes total : Nat)
  | notFound404
  | okText (s : String)
deriving DecidableEq

/-- transfer_file_handler for a request whose body was received and parsed
successfully (the HTTP/JSON layer is external; malformed bodies only reset
the LED and answer 400 without touching the job).  If a job is active the
request is rejected with 429 before any global is written.  Otherwise the
job record is initialized, g_cancel_transfer is cleared, copy_file runs to
completion inside the handler, the LED is set from the result, the response
is built from the result, and only then is active cleared. -/
def transfer_file_handler (cancelAt : Nat → Bool) (st : SysState)
    (filename : String) (env : CopyEnv) : Response × SysState :=
  if st.progress.active then
    (.error429 "A file transfer is already in progress.", st)
  else
    let out := copy_file env cancelAt (initProgress filename)
    let ledBase := if st.readerConnected then LedState.connected else LedState.idle
    let led := if out.1 = CopyResult.ok then ledBase else LedState.error
    let resp := Response.transferResult (out.1 = CopyResult.ok)
      (if out.1 = CopyResult.ok then "File transfer complete!" else out.2.1.error_msg)
    (resp, { st with
      progress := { out.2.1 with active := false }
      cancelRequested := false
      led := led })

/-- transfer_progress_handler: 404 when no transfer is active, otherwise a
read-only snapshot of filename, bytes_transferred and total_bytes. -/
def transfer_progress_handler (st : SysState) : Response × SysState :=
  if st.progress.active then
    (.progressSnapshot st.progress.filename st.progress.bytes_transferred
      st.progress.total_bytes, st)
  else
    (.notFound404, st)

/-- transfer_cancel_handler: sets g_cancel_transfer and acknowledges. -/
def transfer_cancel_handler (st : SysState) : Response × SysState :=
  (.okText "OK", { st with cancelRequested := true })

/-- The requests relevant to the transfer engine; a transfer request
carries the filesystem environment in effect when it is served. -/
inductive Request
  | transfer (filename : String) (env : CopyEnv)
  | progressPoll
  | cancel

/-- Dispatch of one request by the web server task.  The server created by
start_webserver uses HTTPD_DEFAULT_CONFIG, whose single worker task runs
handlers to completion one at a time; the only writer of g_cancel_transfer
is transfer_cancel_handler on that same task, so the flag reads inside a
copy that this task is executing all see the value the transfer handler
itself stored, namely false. -/
def handleRequest (st : SysState) : Request → Response × SysState
  | .transfer f env => transfer_file_handler (fun _ => false) st f env
  | .progressPoll => transfer_progress_handler st
  | .cancel => transfer_cancel_handler st

/-- Sequential processing of a queue of requests by the single server
task, collecting the responses in order. -/
def processRequests (st : SysState) : List Request → List Response × SysState
  | [] => ([], st)
  | r :: rs =>
    let out := handleRequest st r
    let rest := processRequests out.2 rs
    (out.1 :: rest.1, rest.2)

/-- Outcome of load_wifi_credentials.  The C function returns an error both
when nvs_open fails with ESP_ERR_NVS_NOT_FOUND (namespace absent, first
boot) and when nvs_get_str finds no ssid key; it returns ESP_OK as soon as
the ssid is present, even when the password key is absent (the password is
then left empty). -/
inductive LoadResult
  | found (ssid password : String)
  | notFound
deriving DecidableEq

/-- The wifi_creds NVS namespace contents. -/
structure NvsStore where
  namespaceExists : Bool
  ssid : Option String
  password : Option String

/-- load_wifi_credentials over the NVS contents. -/
def load_wifi_credentials (nvs : NvsStore) : LoadResult :=
  if nvs.namespaceExists then
    match nvs.ssid with
    | some s => .found s (nvs.password.getD "")
    | none => .notFound
  else
    .notFound

/-- The event-group bits init_wifi waits for: WIFI_CONNECTED_BIT (set by
wifi_event_handler on IP_EVENT_STA_GOT_IP) or WIFI_FAIL_BIT (set on
WIFI_EVENT_STA_DISCONNECTED). -/
inductive JoinBit
  | connectedBit
  | failBit
deriving DecidableEq

/-- The radio environment for one boot: the first of the two waited-for
bits that ever gets set, or none when neither notification ever arrives. -/
structure WifiEnv where
  joinEvent : Option JoinBit

/-- The network mode init_wifi leaves the device in: station connected to
the saved network, or the local configuration access point
(WIFI_AP_SSID = "Ebook-Library-Box-Setup"). -/
inductive NetMode
  | staConnected
  | configAp
deriving DecidableEq

/-- What init_wifi did: whether a join with the saved credential was
attempted (esp_wifi_start in station mode), the final g_wifi_configured
flag, and the resulting mode. -/
structure WifiInitOut where
  joinAttempted : Bool
  wifiConfigured : Bool
  mode : NetMode
deriving DecidableEq

/-- init_wifi.  When credentials load, it starts the station and blocks in
xEventGroupWaitBits(..., portMAX_DELAY): with portMAX_DELAY there is no
timeout, so the call returns only when one of the two bits is set and
blocks forever when neither notification arrives (modelled as none).
When no credential loads, or after a fail bit, the configuration AP is
started.  The result is none exactly when init_wifi never returns. -/
def init_wifi (nvs : NvsStore) (env : WifiEnv) : Option WifiInitOut :=
  match load_wifi_credentials nvs with
  | .found _ _ =>
    match env.joinEvent with
    | none => none
    | some .connectedBit => some ⟨true, true, .staConnected⟩
    | some .failBit => some ⟨true, false, .configAp⟩
  | .notFound => some ⟨false, false, .configAp⟩

/-- The Wi-Fi events wifi_event_handler reacts to. -/
inductive WifiEvent
  | staStart
  | staDisconnected
  | staGotIp
  | apStaConnected
  | apStaDisconnected
deriving DecidableEq

/-- The state of wifi_event_group. -/
structure EventBits where
  connectedBit : Bool
  failBit : Bool
deriving DecidableEq

/-- wifi_event_handler: the new event-group bits and whether the handler
invokes esp_wifi_connect.  A disconnect only sets WIFI_FAIL_BIT; the
handler never reconnects, so the saved credential is tried exactly once
per boot (the sole esp_wifi_connect call is on WIFI_EVENT_STA_START). -/
def wifi_event_handler : WifiEvent → EventBits → EventBits × Bool
  | .staStart, st => (st, true)
  | .staDisconnected, st => ({ st with failBit := true }, false)
  | .staGotIp, st => ({ st with connectedBit := true }, false)
  | .apStaConnected, st => (st, false)
  | .apStaDisconnected, st => (st, false)

/-- HTTP methods used by the captive portal server. -/
inductive Method
  | get
  | post
deriving DecidableEq

/-- Captive portal responses: the embedded setup page, dispatch to
save_credentials_post_handler, the 405 the ESP-IDF server sends when a
registered URI is hit with the wrong method, or the 302 produced by
http_404_error_handler. -/
inductive PortalResponse
  | setupPage
  | saveCredentials
  | methodNotAllowed405
  | redirect302 (location body : String)
deriving DecidableEq

/-- Routing of the server built by start_captive_portal_server: GET / is
setup_get_handler, POST /save-credentials is save_credentials_post_handler,
a matching URI with another method yields 405, and every other URI falls
into the registered HTTPD_404_NOT_FOUND handler, which sets status
302 Temporary Redirect with Location / and the body iOS needs. -/
def captive_portal_route (m : Method) (path : String) : PortalResponse :=
  if path = "/" then
    if m = .get then .setupPage else .methodNotAllowed405
  else if path = "/save-credentials" then
    if m = .post then .saveCredentials else .methodNotAllowed405
  else
    .redirect302 "/" "Redirecting to setup"

/-- Responses of save_credentials_post_handler.  noResponse is the path
where httpd_req_recv fails other than by timeout: the handler returns
ESP_FAIL without sending anything. -/
inductive HttpSaveResponse
  | badRequest400
  | requestTimeout408
  | noResponse
  | internalError500
  | okSaved
deriving DecidableEq

/-- Observable outcome of one credential submission: the response sent,
whether esp_restart is scheduled, and the arguments of the
save_wifi_credentials call when one is made. -/
structure SaveOutcome where
  response : HttpSaveResponse
  restartScheduled : Bool
  saveAttempted : Option (String × String)
deriving DecidableEq

/-- Outcome of httpd_req_recv in save_credentials_post_handler. -/
inductive RecvStatus
  | okRecv
  | timeoutErr
  | otherErr
deriving DecidableEq

/-- save_credentials_post_handler: rejects an over-long body with 400,
handles recv failure, answers 400 when ssid or password cannot be parsed
from the form body, then calls save_wifi_credentials; on failure it sends
500 and returns without restarting, on success it sends 200 and restarts
after a 2000 ms delay. -/
def save_credentials_post_handler (nvsWriteOk : Bool) (contentTooLong : Bool)
    (recv : RecvStatus) (form : Option (String × String)) : SaveOutcome :=
  if contentTooLong then
    ⟨.badRequest400, false, none⟩
  else
    match recv with
    | .timeoutErr => ⟨.requestTimeout408, false, none⟩
    | .otherErr => ⟨.noResponse, false, none⟩
    | .okRecv =>
      match form with
      | none => ⟨.badRequest400, false, none⟩
      | some (ssid, password) =>
        if nvsWriteOk then
          ⟨.okSaved, true, some (ssid, password)⟩
        else
          ⟨.internalError500, false, some (ssid, password)⟩

/-- The BLE provisioning buffers wifi_ssid (33 bytes) and wifi_password
(65 bytes), as C strings given by their byte contents; both are
zero-initialized, so both start empty. -/
structure BleProvState where
  wifi_ssid : List Nat
  wifi_password : List Nat
deriving DecidableEq

/-- The zero-initialized buffers at boot. -/
def bleInitState : BleProvState := ⟨[], []⟩

/-- The writable attribute handles of the provisioning service that the
ESP_GATTS_WRITE_EVT branch distinguishes. -/
inductive BleHandle
  | ssidVal
  | passVal
  | saveVal
  | otherHandle
deriving DecidableEq

/-- strncpy(dst, src, n) into a zeroed buffer: the destination holds the
bytes of src up to its first NUL, truncated to n bytes. -/
def strncpyBytes (src : List Nat) (n : Nat) : List Nat :=
  (src.takeWhile (fun b => b != 0)).take n

/-- Observable outcome of one GATT write event: the new buffers, the
save_wifi_credentials call when one is made, whether esp_restart is
invoked, and whether any error is reported to the BLE client (the handler
always responds ESP_GATT_OK when a response is needed, so never). -/
structure BleWriteOut where
  st : BleProvState
  saveCall : Option (List Nat × List Nat)
  restartScheduled : Bool
  errorReported : Bool
deriving DecidableEq

/-- The ESP_GATTS_WRITE_EVT branch of gatts_profile_event_handler.  A write
to the ssid or password value handle strncpy-s the payload into the buffer
(sizes 32 and 64).  A write to the save value handle of exactly the single
byte 1 calls save_wifi_credentials(wifi_ssid, wifi_password) and then
unconditionally restarts after 1000 ms; the nvsWriteOk result of the save
is never inspected and no error is ever reported.  Any other payload on
the save handle does nothing. -/
def gatts_write_evt (_nvsWriteOk : Bool) (st : BleProvState) (handle : BleHandle)
    (value : List Nat) : BleWriteOut :=
  match handle with
  | .ssidVal => ⟨{ st with wifi_ssid := strncpyBytes value 32 }, none, false, false⟩
  | .passVal => ⟨{ st with wifi_password := strncpyBytes value 64 }, none, false, false⟩
  | .saveVal =>
    if value.length = 1 ∧ value.headD 0 = 1 then
      ⟨st, some (st.wifi_ssid, st.wifi_password), true, false⟩
    else
      ⟨st, none, false, false⟩
  | .otherHandle => ⟨st, none, false, false⟩

/- Supporting lemmas about the copy loop, proved by strong induction on the
number of bytes remaining. -/
lemma copyLoop_total_bytes (c w : Nat → Bool) :
    ∀ r i p, (copyLoop c w i r p).2.1.total_bytes = p.total_bytes := by
  intro r
  induction r using Nat.strong_induction_on with
  | _ r ih =>
    intro i p
    rw [copyLoop]
    split
    · rfl
    · next hr =>
      split
      · rfl
      · split
        · exact ih _ (by omega) _ _
        · rfl

lemma copyLoopSnapshots_le (c w : Nat → Bool) :
    ∀ r i b x, x ∈ copyLoopSnapshots c w i r b → x ≤ b + r := by
  intro r
  induction r using Nat.strong_induction_on with
  | _ r ih =>
    intro i b x hx
    rw [copyLoopSnapshots] at hx
    revert hx
    split
    · intro hx
      simp only [List.mem_singleton] at hx
      omega
    · next hr =>
      split
      · intro hx
        simp only [List.mem_singleton] at hx
        omega
      · split
        · intro hx
          rcases List.mem_cons.mp hx with h | h
          · omega
          · have := ih _ (by omega) _ _ _ h
            omega
        · intro hx
          simp only [List.mem_singleton] at hx
          omega

lemma copyLoopSnapshots_chain (c w : Nat → Bool) :
    ∀ r i b, List.Chain' (· ≤ ·) (copyLoopSnapshots c w i r b) := by
  intro r
  induction r using Nat.strong_induction_on with
  | _ r ih =>
    intro i b
    rw [copyLoopSnapshots]
    split
    · simp
    · next hr =>
      split
      · simp
      · split
        · next hw =>
          refine List.chain'_cons'.mpr ⟨?_, ih _ (by omega) _ _⟩
          intro y hy
          have hmem : y ∈ copyLoopSnapshots c w (i + 1) (r - min 4096 r) (b + min 4096 r) :=
            List.mem_of_mem_head? hy
          have hfirst : ∀ r' i' b', (copyLoopSnapshots c w i' r' b').head? = some b' := by
            intro r' i' b'
            rw [copyLoopSnapshots]
            split
            · rfl
            · split
              · rfl
              · split
                · rfl
                · rfl
          rw [hfirst] at hy
          have : y = b + min 4096 r := by
            injection hy with h
            exact h.symm
          omega
        · simp

lemma copyLoop_bytes_mem (c w : Nat → Bool) :
    ∀ r i p, (copyLoop c w i r p).2.1.bytes_transferred ∈
      copyLoopSnapshots c w i r p.bytes_transferred := by
  intro r
  induction r using Nat.strong_induction_on with
  | _ r ih =>
    intro i p
    rw [copyLoop, copyLoopSnapshots]
    split
    · simp
    · next hr =>
      split
      · simp
      · split
        · exact List.mem_cons_of_mem _ (ih _ (by omega) _ _)
        · simp

lemma copyLoop_complete (c w : Nat → Bool) (hc : ∀ j, c j = false)
    (hw : ∀ j, w j = true) :
    ∀ r i p, copyLoop c w i r p =
      (.ok, { p with bytes_transferred := p.bytes_transferred + r, success := true },
        .present) := by
  intro r
  induction r using Nat.strong_induction_on with
  | _ r ih =>
    intro i p
    rw [copyLoop]
    split
    · next h0 => subst h0; rfl
    · next hr =>
      rw [if_neg (by simp [hc i]), if_pos (hw i), ih _ (by omega)]
      exact congrArg
        (fun n => ((.ok : CopyResult),
          ({ p with bytes_transferred := n, success := true } : TransferProgress),
          (.present : DestStatus)))
        (by omega : p.bytes_transferred + min 4096 r + (r - min 4096 r) =
          p.bytes_transferred + r)

lemma copyLoop_cancel_msg (c w : Nat → Bool) :
    ∀ r i p, p.error_msg ≠ "Transfer cancelled." →
      (copyLoop c w i r p).2.1.error_msg = "Transfer cancelled." →
      (copyLoop c w i r p).1 = .fail ∧ (copyLoop c w i r p).2.2 = .removed := by
  intro r
  induction r using Nat.strong_induction_on with
  | _ r ih =>
    intro i p hp hmsg
    rw [copyLoop] at hmsg ⊢
    revert hmsg
    split
    · intro hmsg
      exact absurd hmsg hp
    · next hr =>
      split
      · intro _
        exact ⟨rfl, rfl⟩
      · split
        · intro hmsg
          exact ih _ (by omega) _ _ hp hmsg
        · intro hmsg
          simp only [] at hmsg
          exact absurd hmsg (by decide)

/- Concrete demonstration inputs used by the witnesses and
counterexamples. -/

/-- A CopyEnv in which everything succeeds and the source holds 3 bytes
(a single chunk). -/
def demoOkEnv : CopyEnv := ⟨true, true, 3, true, true, fun _ => true⟩

/-- A CopyEnv for a 5000-byte source (two chunks) where everything
succeeds. -/
def demoBigEnv : CopyEnv := ⟨true, true, 5000, true, true, fun _ => true⟩

/-- The idle global state: no active transfer, LED idle, no reader. -/
def demoIdleState : SysState := ⟨⟨"", 0, 0, false, false, ""⟩, false, .idle, false⟩

/-- A cancellation-flag oracle under which the flag is seen set from the
second chunk check on. -/
def demoCancelOracle : Nat → Bool := fun i => i != 0

/-- Only the cancellation branch of copy_file produces the message
Transfer cancelled.; on that branch the result is ESP_FAIL and the
destination file has been removed. -/
lemma copy_file_cancel_msg (env : CopyEnv) (cancelAt : Nat → Bool)
    (p : TransferProgress) (hp : p.error_msg = "")
    (hmsg : (copy_file env cancelAt p).2.1.error_msg = "Transfer cancelled.") :
    (copy_file env cancelAt p).1 = .fail ∧ (copy_file env cancelAt p).2.2 = .removed := by
  revert hmsg
  simp only [copy_file]
  split
  · split
    · split
      · intro hmsg
        exact copyLoop_cancel_msg _ _ _ _ _ (by simp [hp]) hmsg
      · intro hmsg
        simp at hmsg
    · intro hmsg
      simp at hmsg
  · intro hmsg
    simp [hp] at hmsg

/-- Claim C1, amended.  For every transfer stopped by the cancellation
flag, the partially written destination file is deleted before copy_file
returns; however, the outcome reported to the requester is the generic
failure form (success is false, with the message Transfer cancelled.) and
the handler sets the error indicator state LED_STATE_ERROR, rather than a
distinct non-error Cancelled outcome. -/
theorem cancelled_transfer_cleanup_and_failure_report (cancelAt : Nat → Bool)
    (st : SysState) (f : String) (env : CopyEnv)
    (hidle : st.progress.active = false)
    (hcancel : (copy_file env cancelAt (initProgress f)).2.1.error_msg =
      "Transfer cancelled.") :
    (copy_file env cancelAt (initProgress f)).2.2 = .removed ∧
    (transfer_file_handler cancelAt st f env).1 =
      .transferResult false "Transfer cancelled." ∧
    (transfer_file_handler cancelAt st f env).2.led = .error := by
  obtain ⟨hfail, hrem⟩ := copy_file_cancel_msg env cancelAt (initProgress f) rfl hcancel
  refine ⟨hrem, ?_, ?_⟩ <;>
    simp [transfer_file_handler, hidle, hfail, hcancel]

/-- Claim C1 witness: a 5000-byte transfer whose cancellation flag is
observed before the second chunk. -/
theorem cancelled_transfer_cleanup_and_failure_report_witness :
    (copy_file demoBigEnv demoCancelOracle (initProgress "a.epub")).2.2 = .removed ∧
    (transfer_file_handler demoCancelOracle demoIdleState "a.epub" demoBigEnv).1 =
      .transferResult false "Transfer cancelled." ∧
    (transfer_file_handler demoCancelOracle demoIdleState "a.epub" demoBigEnv).2.led = .error :=
  cancelled_transfer_cleanup_and_failure_report demoCancelOracle demoIdleState
    "a.epub" demoBigEnv rfl
    (by simp [demoBigEnv, demoCancelOracle, copy_file, copyLoop, initProgress])

/-- Claim C1 counterexample.  The claim states that a cancelled transfer
resolves as a distinct non-error outcome, not a generic failure, and is
not rendered via the error indicator state.  At this concrete cancelled
transfer the handler answers with the generic failure response
(success is false) and leaves g_led_state = LED_STATE_ERROR; the deletion
half of the claim does hold (the destination is removed). -/
theorem cancel_reported_as_error_counterexample :
    (transfer_file_handler (fun _ => true) demoIdleState "b.epub" demoOkEnv).1 =
      Response.transferResult false "Transfer cancelled." ∧
    (transfer_file_handler (fun _ => true) demoIdleState "b.epub" demoOkEnv).2.led =
      LedState.error ∧
    (copy_file demoOkEnv (fun _ => true) (initProgress "b.epub")).2.2 =
      DestStatus.removed := by
  refine ⟨?_, ?_, ?_⟩ <;>
    simp [transfer_file_handler, demoIdleState, demoOkEnv, copy_file, copyLoop,
      initProgress]

/-- Claim C2: a transfer request received while a TransferJob is Active is
answered with the 429 busy error, and the handler returns with every
global exactly as it was: no field of the active job (filename,
bytes_transferred, total_bytes, flags) nor the cancellation flag nor the
LED state is mutated by the rejected request. -/
theorem busy_transfer_rejected_without_mutation (cancelAt : Nat → Bool)
    (st : SysState) (f : String) (env : CopyEnv)
    (h : st.progress.active = true) :
    transfer_file_handler cancelAt st f env =
      (.error429 "A file transfer is already in progress.", st) := by
  simp [transfer_file_handler, h]

/-- Claim C2 witness: a second transfer request arriving while a job with
5 of 10 bytes transferred is active is rejected and mutates nothing. -/
theorem busy_transfer_rejected_without_mutation_witness :
    transfer_file_handler (fun _ => false)
      ⟨⟨"busy.epub", 5, 10, true, false, ""⟩, false, .transfer, true⟩ "new.epub"
      demoOkEnv =
      (.error429 "A file transfer is already in progress.",
        ⟨⟨"busy.epub", 5, 10, true, false, ""⟩, false, .transfer, true⟩) :=
  busy_transfer_rejected_without_mutation _ _ _ _ rfl

/-- Claim C3, amended.  On the HTTP channel a failed credential save is
answered with 500 and the device does not restart, and a restart is
scheduled only after a successful save; on the BLE channel, however, a
valid commit write schedules the restart unconditionally, regardless of
the save outcome, and reports no error to the submitter. -/
theorem credential_save_failure_handling (s p : String) (st : BleProvState) :
    save_credentials_post_handler false false .okRecv (some (s, p)) =
      ⟨.internalError500, false, some (s, p)⟩ ∧
    save_credentials_post_handler true false .okRecv (some (s, p)) =
      ⟨.okSaved, true, some (s, p)⟩ ∧
    (gatts_write_evt false st .saveVal [1]).restartScheduled = true ∧
    (gatts_write_evt false st .saveVal [1]).errorReported = false := by
  refine ⟨rfl, rfl, ?_, ?_⟩ <;> simp [gatts_write_evt]

/-- Claim C3 counterexample.  The claim states that on either channel a
failed save is reported and the device does not restart.  On the BLE
channel with the store rejecting the write, the handler still schedules
the restart and surfaces no error. -/
theorem ble_save_failure_still_restarts_counterexample :
    (gatts_write_evt false bleInitState .saveVal [1]).restartScheduled = true ∧
    (gatts_write_evt false bleInitState .saveVal [1]).errorReported = false :=
  ⟨rfl, rfl⟩

/-- Claim C4, amended.  The boot-time join with a saved credential is
attempted exactly once: the event handler invokes esp_wifi_connect only
for the station-start event and never reconnects after a disconnect, and
an explicit failure notification makes init_wifi fall back to the
configuration AP.  But the wait itself has no timeout: init_wifi blocks
in xEventGroupWaitBits with portMAX_DELAY and returns exactly when a
connected or failure notification arrives, blocking forever otherwise. -/
theorem single_join_attempt_no_timeout (nvs : NvsStore) (env : WifiEnv)
    (s p : String) (h : load_wifi_credentials nvs = .found s p) :
    ((init_wifi nvs env = none) ↔ env.joinEvent = none) ∧
    (env.joinEvent = some .failBit →
      init_wifi nvs env = some ⟨true, false, .configAp⟩) ∧
    (∀ ev st, (wifi_event_handler ev st).2 = true ↔ ev = .staStart) := by
  refine ⟨?_, ?_, ?_⟩
  · cases henv : env.joinEvent with
    | none => simp [init_wifi, h, henv]
    | some b => cases b <;> simp [init_wifi, h, henv]
  · intro he
    simp [init_wifi, h, he]
  · intro ev st
    cases ev <;> simp [wifi_event_handler]

/-- Claim C4 witness: saved credentials exist and the join fails with an
explicit disconnect notification; the device falls back to the AP. -/
theorem single_join_attempt_no_timeout_witness :
    ((init_wifi ⟨true, some "home", some "pw"⟩ ⟨some .failBit⟩ = none) ↔
      (⟨some .failBit⟩ : WifiEnv).joinEvent = none) ∧
    ((⟨some .failBit⟩ : WifiEnv).joinEvent = some .failBit →
      init_wifi ⟨true, some "home", some "pw"⟩ ⟨some .failBit⟩ =
        some ⟨true, false, .configAp⟩) ∧
    (∀ ev st, (wifi_event_handler ev st).2 = true ↔ ev = .staStart) :=
  single_join_attempt_no_timeout ⟨true, some "home", some "pw"⟩ ⟨some .failBit⟩
    "home" "pw" rfl

/-- Claim C4 counterexample.  The claim states the boot-time join waits at
most a single deterministic timeout before falling back to configuration
mode.  With saved credentials present and neither a connected nor a
failure notification ever delivered, init_wifi never returns at all: the
wait uses portMAX_DELAY, so no timeout ever triggers the fallback. -/
theorem join_wait_unbounded_counterexample :
    init_wifi ⟨true, some "home", some "pw"⟩ ⟨none⟩ = none := rfl

/-- Claim C5, amended.  The copy loop runs to completion inside
transfer_file_handler on the request-serving task itself: when the
handler returns, the job is already resolved and active is false, so a
progress poll queued while the transfer was in flight is served only
after the transfer has completed and is answered 404 (no active
transfer), never with an in-flight snapshot. -/
theorem copy_runs_inside_handler (cancelAt : Nat → Bool) (st : SysState)
    (f : String) (env : CopyEnv) (rest : List Request)
    (hidle : st.progress.active = false) :
    (transfer_file_handler cancelAt st f env).2.progress.active = false ∧
    (processRequests st (.transfer f env :: .progressPoll :: rest)).1[1]? =
      some Response.notFound404 := by
  constructor
  · simp [transfer_file_handler, hidle]
  · simp [processRequests, handleRequest, transfer_file_handler,
      transfer_progress_handler, hidle]

/-- Claim C5 witness: a concrete transfer followed by a progress poll. -/
theorem copy_runs_inside_handler_witness :
    (transfer_file_handler (fun _ => false) demoIdleState "book.epub" demoOkEnv).2.progress.active = false ∧
    (processRequests demoIdleState
      [.transfer "book.epub" demoOkEnv, .progressPoll]).1[1]? =
      some Response.notFound404 :=
  copy_runs_inside_handler (fun _ => false) demoIdleState "book.epub" demoOkEnv [] rfl

/-- Claim C5 counterexample.  The claim states that progress polling is
serviceable while a transfer is in flight.  In the single-task request
server of the code, a poll queued during an active copy is processed only
after the transfer handler finishes, at which point active has been reset,
so the poll is answered 404 instead of a progress snapshot: polling never
observes the in-flight transfer. -/
theorem poll_during_copy_not_serviced_counterexample :
    (processRequests demoIdleState
      [.transfer "book.epub" demoOkEnv, .progressPoll]).1 =
      [.transferResult true "File transfer complete!", .notFound404] := by
  simp [processRequests, handleRequest, transfer_file_handler,
    transfer_progress_handler, copy_file, copyLoop, initProgress, demoIdleState,
    demoOkEnv]

/-- Claim C6: whenever loading the saved credential reports NotFound, the
boot reaches configuration mode (the local AP is started) and no network
join is attempted with any credential during that boot. -/
theorem notfound_boot_enters_config_mode (nvs : NvsStore) (env : WifiEnv)
    (h : load_wifi_credentials nvs = .notFound) :
    init_wifi nvs env = some ⟨false, false, .configAp⟩ := by
  simp [init_wifi, h]

/-- Claim C6 witness: first boot with no NVS namespace. -/
theorem notfound_boot_enters_config_mode_witness :
    init_wifi ⟨false, none, none⟩ ⟨some .connectedBit⟩ = some ⟨false, false, .configAp⟩ :=
  notfound_boot_enters_config_mode _ _ rfl

/-- Claim C7: a transfer whose copy loop reads and writes every chunk with
the cancellation flag never observed and no write failure ends with
bytes_transferred equal to total_bytes (both equal to the stat size of the
source), resolves with the success response, marks the job successful and
does not set the error indicator. -/
theorem complete_transfer_succeeds (cancelAt : Nat → Bool) (st : SysState)
    (f : String) (env : CopyEnv)
    (hidle : st.progress.active = false)
    (hsrc : env.srcOpenOk = true) (hstat : env.statOk = true)
    (hdest : env.destOpenOk = true) (hmalloc : env.mallocOk = true)
    (hnc : ∀ i, cancelAt i = false) (hw : ∀ i, env.writeOkAt i = true) :
    (transfer_file_handler cancelAt st f env).1 =
      .transferResult true "File transfer complete!" ∧
    (transfer_file_handler cancelAt st f env).2.progress.bytes_transferred =
      env.srcSize ∧
    (transfer_file_handler cancelAt st f env).2.progress.total_bytes = env.srcSize ∧
    (transfer_file_handler cancelAt st f env).2.progress.success = true ∧
    (transfer_file_handler cancelAt st f env).2.led ≠ LedState.error := by
  have hcopy : copy_file env cancelAt (initProgress f) =
      (.ok,
        { filename := f.take 255
          bytes_transferred := env.srcSize
          total_bytes := env.srcSize
          active := true
          success := true
          error_msg := "" },
        .present) := by
    simp [copy_file, hsrc, hstat, hdest, hmalloc,
      copyLoop_complete cancelAt env.writeOkAt hnc hw, initProgress]
  refine ⟨?_, ?_, ?_, ?_, ?_⟩ <;>
    simp [transfer_file_handler, hidle, hcopy]
  cases st.readerConnected <;> simp

/-- Claim C7 witness: a 5000-byte transfer with no cancellation and no
write failure completes with 5000 of 5000 bytes and succeeds. -/
theorem complete_transfer_succeeds_witness :
    (transfer_file_handler (fun _ => false) demoIdleState "book.epub" demoBigEnv).1 =
      .transferResult true "File transfer complete!" ∧
    (transfer_file_handler (fun _ => false) demoIdleState "book.epub" demoBigEnv).2.progress.bytes_transferred =
      demoBigEnv.srcSize ∧
    (transfer_file_handler (fun _ => false) demoIdleState "book.epub" demoBigEnv).2.progress.total_bytes =
      demoBigEnv.srcSize ∧
    (transfer_file_handler (fun _ => false) demoIdleState "book.epub" demoBigEnv).2.progress.success = true ∧
    (transfer_file_handler (fun _ => false) demoIdleState "book.epub" demoBigEnv).2.led ≠ LedState.error :=
  complete_transfer_succeeds (fun _ => false) demoIdleState "book.epub" demoBigEnv
    rfl rfl rfl rfl rfl (fun _ => rfl) (fun _ => rfl)

/-- Claim C8: when total_bytes is known from stat and nonzero, every
observable value of bytes_transferred during the copy loop is at most
total_bytes, successive snapshots are non-decreasing, and the value the
loop leaves behind is one of those snapshots; total_bytes itself equals
the stat size throughout. -/
theorem progress_bounded_and_monotone (cancelAt : Nat → Bool) (env : CopyEnv)
    (f : String) (hsrc : env.srcOpenOk = true) (hstat : env.statOk = true)
    (hdest : env.destOpenOk = true) (hmalloc : env.mallocOk = true)
    (_hnz : env.srcSize ≠ 0) :
    (copy_file env cancelAt (initProgress f)).2.1.total_bytes = env.srcSize ∧
    (∀ b ∈ copyLoopSnapshots cancelAt env.writeOkAt 0 env.srcSize 0,
      b ≤ env.srcSize) ∧
    List.Chain' (· ≤ ·) (copyLoopSnapshots cancelAt env.writeOkAt 0 env.srcSize 0) ∧
    (copy_file env cancelAt (initProgress f)).2.1.bytes_transferred ∈
      copyLoopSnapshots cancelAt env.writeOkAt 0 env.srcSize 0 := by
  have hred : copy_file env cancelAt (initProgress f) =
      copyLoop cancelAt env.writeOkAt 0 env.srcSize
        { initProgress f with total_bytes := env.srcSize } := by
    simp [copy_file, hsrc, hstat, hdest, hmalloc, initProgress]
  refine ⟨?_, ?_, ?_, ?_⟩
  · rw [hred, copyLoop_total_bytes]
  · intro b hb
    have := copyLoopSnapshots_le cancelAt env.writeOkAt env.srcSize 0 0 b hb
    omega
  · exact copyLoopSnapshots_chain cancelAt env.writeOkAt env.srcSize 0 0
  · rw [hred]
    exact copyLoop_bytes_mem cancelAt env.writeOkAt env.srcSize 0 _

/-- Claim C8 witness: the 5000-byte transfer, with an arbitrary
cancellation oracle held at false. -/
theorem progress_bounded_and_monotone_witness :
    (copy_file demoBigEnv (fun _ => false) (initProgress "book.epub")).2.1.total_bytes =
      demoBigEnv.srcSize ∧
    (∀ b ∈ copyLoopSnapshots (fun _ => false) demoBigEnv.writeOkAt 0
      demoBigEnv.srcSize 0, b ≤ demoBigEnv.srcSize) ∧
    List.Chain' (· ≤ ·) (copyLoopSnapshots (fun _ => false) demoBigEnv.writeOkAt 0
      demoBigEnv.srcSize 0) ∧
    (copy_file demoBigEnv (fun _ => false) (initProgress "book.epub")).2.1.bytes_transferred ∈
      copyLoopSnapshots (fun _ => false) demoBigEnv.writeOkAt 0 demoBigEnv.srcSize 0 :=
  progress_bounded_and_monotone (fun _ => false) demoBigEnv "book.epub"
    rfl rfl rfl rfl (by decide)

/-- Claim C9: in configuration mode, every HTTP request whose path is
neither the configuration form / nor the submission endpoint
/save-credentials is answered by the registered 404 handler with a 302
redirect to /. -/
theorem unmatched_path_redirects (m : Method) (path : String)
    (h1 : path ≠ "/") (h2 : path ≠ "/save-credentials") :
    captive_portal_route m path = .redirect302 "/" "Redirecting to setup" := by
  simp [captive_portal_route, h1, h2]

/-- Claim C9 witness: the iOS captive-portal probe path. -/
theorem unmatched_path_redirects_witness :
    captive_portal_route .get "/hotspot-detect.html" =
      .redirect302 "/" "Redirecting to setup" :=
  unmatched_path_redirects _ _ (by decide) (by decide)

/-- Claim C10: a write of the single byte 1 to the commit-trigger
attribute saves exactly the current ssid and password buffer contents —
including the initial empty strings when neither attribute was written —
and any other value or length written to that attribute triggers no save
and no restart. -/
theorem save_trigger_persists_current_buffers (nvsOk : Bool)
    (st : BleProvState) (v : List Nat) :
    gatts_write_evt nvsOk st .saveVal [1] =
      ⟨st, some (st.wifi_ssid, st.wifi_password), true, false⟩ ∧
    (gatts_write_evt nvsOk bleInitState .saveVal [1]).saveCall = some ([], []) ∧
    (v ≠ [1] → gatts_write_evt nvsOk st .saveVal v = ⟨st, none, false, false⟩) := by
  refine ⟨by simp [gatts_write_evt], by simp [gatts_write_evt, bleInitState], ?_⟩
  intro hv
  have hne : ¬ (v.length = 1 ∧ v.headD 0 = 1) := by
    rintro ⟨hl, hh⟩
    apply hv
    cases v with
    | nil => simp at hl
    | cons x t =>
      cases t with
      | nil =>
        simp at hh
        simp [hh]
      | cons y t2 => simp at hl
  simp only [gatts_write_evt]
  rw [if_neg hne]

/-- Claim C10 witness: with untouched buffers, byte 1 saves the empty
pair and byte 2 saves nothing. -/
theorem save_trigger_persists_current_buffers_witness :
    gatts_write_evt true bleInitState .saveVal [1] =
      ⟨bleInitState, some ([], []), true, false⟩ ∧
    gatts_write_evt true bleInitState .saveVal [2] =
      ⟨bleInitState, none, false, false⟩ :=
  ⟨(save_trigger_persists_current_buffers true bleInitState [2]).1,
   (save_trigger_persists_current_buffers true bleInitState [2]).2.2 (by decide)⟩

end EbookLibrarian
